import Mathlib

/-!
Shallow embedding of the navball panel core (src/src/NavballPanel.tsx).

The panel receives frame batches from the render host, extracts the first
message on the selected orientation topic and on the selected heading
(course) topic, and mutates the Three.js scene: the sphere quaternion is
set from the orientation sample with the y and z components swapped, and
the course indicator line is rotated about the vertical axis and shown or
hidden depending on the heading sample.  Numeric payload fields are
modelled as real numbers.
-/

/-- A quaternion as four numeric components, used both for the telemetry
sample and for the render-engine quaternion. -/
structure Quat where
  x : ℝ
  y : ℝ
  z : ℝ
  w : ℝ

/-- The decoded message payload: the code reads the fields x, y, z, w
structurally from the decoded record (orientation messages use all four,
heading messages use only x, y, z; no validation is performed). -/
structure Payload where
  x : ℝ
  y : ℝ
  z : ℝ
  w : ℝ

/-- A message event as delivered by the host: a topic name and an opaque
decoded payload.  The payload is an Option because the code guards with
a null check before reading it. -/
structure MessageEvent where
  topic : String
  message : Option Payload

/-- A topic as supplied by the host: a name and a schema identifier. -/
structure Topic where
  name : String
  schemaName : String

/-- The persisted panel configuration (PanelState in the source): an
optional orientation topic and an optional course topic. -/
structure PanelState where
  topic : Option String
  course_topic : Option String
deriving DecidableEq

/-- The scene fields mutated by the per-frame update effect: the sphere
quaternion, the course-line rotation about the y axis, and the
course-line visibility flag.  The course line always exists after scene
initialization (it is created and attached to the sphere at mount). -/
structure SceneState where
  sphereQuat : Quat
  courseAngleY : ℝ
  courseVisible : Bool

/-- The scene right after initialization: Three.js objects start with the
identity quaternion (0,0,0,1) and zero rotation, and the course line is
created hidden. -/
def initialScene : SceneState :=
  SceneState.mk (Quat.mk 0 0 0 1) 0 false

/-- JS strict equality of a message topic against the selected topic
(string or undefined): a string never equals undefined. -/
def topicMatches (sel : Option String) (m : MessageEvent) : Bool :=
  match sel with
  | some t => m.topic == t
  | none => false

/-- Message extraction: messages.find of the first message whose topic
strictly equals the selected topic name. -/
def extractLatest (msgs : List MessageEvent) (sel : Option String) : Option MessageEvent :=
  msgs.find? (topicMatches sel)

/-- Topic filtering for quaternion-schema topics, preserving host order. -/
def quatTopics (topics : List Topic) : List Topic :=
  topics.filter (fun t => t.schemaName == "foxglove.Quaternion")

/-- Topic filtering for vector-schema topics, preserving host order. -/
def vecTopics (topics : List Topic) : List Topic :=
  topics.filter (fun t => t.schemaName == "foxglove.Vector3")

/-- The default-selection effect: when no orientation topic is selected,
setState is called with a fresh object whose topic field is the name of
the first candidate (if any); the previous state object is replaced
wholesale, so the course topic field is absent (undefined) afterwards. -/
def defaultSelection (candidates : List Topic) (cur : PanelState) : PanelState :=
  if cur.topic = none then
    PanelState.mk (candidates.head?.map Topic.name) none
  else
    cur

/-- The coordinate adapter: the render-engine quaternion is set from the
telemetry sample with the y and z components swapped. -/
def toRenderQuaternion (q : Quat) : Quat :=
  Quat.mk q.x q.z q.y q.w

/-- Math.atan2 with its JavaScript argument order: the first argument is
the numerator coordinate, the second the denominator coordinate. -/
noncomputable def atan2 (y x : ℝ) : ℝ :=
  if 0 < x then Real.arctan (y / x)
  else if x < 0 then
    if 0 ≤ y then Real.arctan (y / x) + Real.pi
    else Real.arctan (y / x) - Real.pi
  else
    if 0 < y then Real.pi / 2
    else if y < 0 then -(Real.pi / 2)
    else 0

/-- The orientation half of the per-frame update effect: if a matching
message with a non-null payload was found, the sphere quaternion is set
to the swapped components; otherwise the scene is untouched. -/
def applyQuat (scene : SceneState) (quatMsg : Option MessageEvent) : SceneState :=
  match quatMsg with
  | some m =>
    match m.message with
    | some q =>
      { scene with sphereQuat := toRenderQuaternion (Quat.mk q.x q.y q.z q.w) }
    | none => scene
  | none => scene

/-- The heading half of the per-frame update effect: with a matching
message carrying a non-null payload, the horizontal length is computed;
when it is positive the course line is rotated to atan2 of the
normalized components and shown, and when it is zero nothing is touched.
With no matching message (or a null payload) the course line is hidden. -/
noncomputable def applyCourse (scene : SceneState) (courseMsg : Option MessageEvent) : SceneState :=
  match courseMsg with
  | some m =>
    match m.message with
    | some v =>
      let length := Real.sqrt (v.x * v.x + v.y * v.y)
      if length > 0 then
        { scene with
          courseAngleY := atan2 (v.x / length) (v.y / length)
          courseVisible := true }
      else scene
    | none => { scene with courseVisible := false }
  | none => { scene with courseVisible := false }

/-- The body of the per-frame update effect (lines 280 to 317 of the
source): find the orientation and course messages in the batch, update
the sphere quaternion, then update the course line. -/
noncomputable def processFrame (topic course : Option String) (scene : SceneState)
    (msgs : List MessageEvent) : SceneState :=
  applyCourse (applyQuat scene (extractLatest msgs topic)) (extractLatest msgs course)

/-- The render state handed to the per-frame callback: the topic list
and, when new messages arrived, the current frame batch. -/
structure RenderState where
  topics : List Topic
  currentFrame : Option (List MessageEvent)

/-- The React state touched by the onRender callback: the stored done
callback (identified by a number, since each host invocation passes a
fresh closure), the latest topic list and the latest message batch. -/
structure UiState where
  renderDone : Option Nat
  topics : Option (List Topic)
  messages : Option (List MessageEvent)

/-- The body of context.onRender: store the done callback, store the
topic list, and store the current frame only when one is present. -/
def onRenderCallback (s : UiState) (rs : RenderState) (doneId : Nat) : UiState :=
  { renderDone := some doneId
    topics := some rs.topics
    messages :=
      match rs.currentFrame with
      | some frame => some frame
      | none => s.messages }

/-- The render-done effect: React reruns an effect whose dependency list
is the stored done callback exactly when that value changed, and the
effect body invokes the stored callback once (or not at all when none is
stored).  Returns the list of done-callback invocations it performs. -/
def doneEffect (old new : UiState) : List Nat :=
  if new.renderDone = old.renderDone then [] else new.renderDone.toList

/-- One full host frame invocation: run the onRender callback, then the
render-done effect; returns the new state and the list of done-callback
invocations performed for this frame. -/
def invokeFrame (s : UiState) (rs : RenderState) (doneId : Nat) : UiState × List Nat :=
  let s2 := onRenderCallback s rs doneId
  (s2, doneEffect s s2)

/-- The state touched by the ResizeObserver handler: the camera aspect
ratio and the renderer output size. -/
structure ViewState where
  aspect : ℝ
  width : ℝ
  height : ℝ

/-- The ResizeObserver handler (lines 248 to 254 of the source): it reads
the container size and unconditionally sets the camera aspect to
width / height and the renderer size to the container size.  There is no
check of the container size. -/
noncomputable def onResize (_v : ViewState) (w h : ℝ) : ViewState :=
  ViewState.mk (w / h) w h

/-- Spec-described variant of the resize handler, for comparison with the
code: the spec asserts the handler checks for a non-zero container size
before computing the aspect ratio, leaving the view untouched on a
zero-sized container. -/
noncomputable def onResizeGuardedSpec (v : ViewState) (w h : ℝ) : ViewState :=
  if w ≠ 0 ∧ h ≠ 0 then ViewState.mk (w / h) w h else v

/-! ## Helper lemmas -/

theorem applyCourse_sphereQuat (s : SceneState) (c : Option MessageEvent) :
    (applyCourse s c).sphereQuat = s.sphereQuat := by
  rcases c with _ | ⟨t, _ | v⟩
  · rfl
  · rfl
  · by_cases h : Real.sqrt (v.x * v.x + v.y * v.y) > 0 <;>
      simp [applyCourse, h]

theorem applyQuat_courseVisible (s : SceneState) (q : Option MessageEvent) :
    (applyQuat s q).courseVisible = s.courseVisible := by
  rcases q with _ | ⟨t, _ | v⟩ <;> rfl

theorem applyQuat_courseAngleY (s : SceneState) (q : Option MessageEvent) :
    (applyQuat s q).courseAngleY = s.courseAngleY := by
  rcases q with _ | ⟨t, _ | v⟩ <;> rfl

theorem find?_eq_head?_filter {α : Type} (p : α → Bool) (l : List α) :
    l.find? p = (l.filter p).head? := by
  induction l with
  | nil => rfl
  | cons a t ih =>
    by_cases h : p a
    · rw [List.find?_cons_of_pos _ h, List.filter_cons_of_pos h, List.head?_cons]
    · rw [List.find?_cons_of_neg _ h, List.filter_cons_of_neg h, ih]

theorem extractLatest_none_sel (msgs : List MessageEvent) :
    extractLatest msgs none = none := by
  unfold extractLatest
  rw [List.find?_eq_none]
  intro m _ hc
  exact Bool.false_ne_true hc

theorem atan2_one_zero : atan2 1 0 = Real.pi / 2 := by
  unfold atan2
  norm_num

theorem atan2_zero_one : atan2 0 1 = 0 := by
  unfold atan2
  norm_num

theorem applyQuat_some_msg (s : SceneState) (m : MessageEvent) (q : Payload)
    (hq : m.message = some q) :
    applyQuat s (some m)
      = { s with sphereQuat := toRenderQuaternion (Quat.mk q.x q.y q.z q.w) } := by
  simp only [applyQuat]
  rw [hq]

theorem applyCourse_some_msg (s : SceneState) (m : MessageEvent) (v : Payload)
    (hv : m.message = some v) :
    applyCourse s (some m)
      = (if Real.sqrt (v.x * v.x + v.y * v.y) > 0 then
          { s with
            courseAngleY :=
              atan2 (v.x / Real.sqrt (v.x * v.x + v.y * v.y))
                (v.y / Real.sqrt (v.x * v.x + v.y * v.y))
            courseVisible := true }
        else s) := by
  simp only [applyCourse]
  rw [hv]

theorem applyCourse_none (s : SceneState) :
    applyCourse s none = { s with courseVisible := false } := rfl

/-! ## Claim theorems -/

/-- C1: For every telemetry orientation sample (x, y, z, w) delivered on
the selected orientation topic, the per-frame update sets the render
quaternion to exactly (x, z, y, w) — the fixed y/z swap performed by the
coordinate adapter — and the swap is an involution: applying it twice
yields the original tuple. -/
theorem processFrame_sets_render_quaternion_swap
    (topic course : Option String) (scene : SceneState) (msgs : List MessageEvent)
    (m : MessageEvent) (q : Payload)
    (hm : extractLatest msgs topic = some m) (hq : m.message = some q) :
    (processFrame topic course scene msgs).sphereQuat = Quat.mk q.x q.z q.y q.w
    ∧ toRenderQuaternion (Quat.mk q.x q.y q.z q.w) = Quat.mk q.x q.z q.y q.w
    ∧ ∀ p : Quat, toRenderQuaternion (toRenderQuaternion p) = p := by
  refine ⟨?_, rfl, fun p => rfl⟩
  unfold processFrame
  rw [applyCourse_sphereQuat, hm, applyQuat_some_msg _ _ _ hq]
  rfl

/-- Witness for C1 at a concrete input: the sample (0, 1, 0, 0) on the
selected topic lands in the scene as (0, 0, 1, 0). -/
theorem processFrame_sets_render_quaternion_swap_witness :
    (processFrame (some "a") none initialScene
        [MessageEvent.mk "a" (some (Payload.mk 0 1 0 0))]).sphereQuat = Quat.mk 0 0 1 0 :=
  (processFrame_sets_render_quaternion_swap (some "a") none initialScene
      [MessageEvent.mk "a" (some (Payload.mk 0 1 0 0))]
      (MessageEvent.mk "a" (some (Payload.mk 0 1 0 0))) (Payload.mk 0 1 0 0)
      rfl rfl).1

/-- C2: For every frame batch containing no message on the selected
orientation topic, processing leaves the sphere orientation exactly as it
was: there is no reset to identity or any other change. -/
theorem processFrame_no_orientation_msg_preserves_quat
    (topic course : Option String) (scene : SceneState) (msgs : List MessageEvent)
    (h : extractLatest msgs topic = none) :
    (processFrame topic course scene msgs).sphereQuat = scene.sphereQuat := by
  unfold processFrame
  rw [applyCourse_sphereQuat, h]
  rfl

/-- Witness for C2 at a concrete input: a batch whose only message is on
a different topic leaves the prior quaternion (1, 0, 0, 0) in place. -/
theorem processFrame_no_orientation_msg_preserves_quat_witness :
    (processFrame (some "t") none (SceneState.mk (Quat.mk 1 0 0 0) 0 false)
        [MessageEvent.mk "other" (some (Payload.mk 9 9 9 9))]).sphereQuat
      = Quat.mk 1 0 0 0 :=
  processFrame_no_orientation_msg_preserves_quat (some "t") none
    (SceneState.mk (Quat.mk 1 0 0 0) 0 false)
    [MessageEvent.mk "other" (some (Payload.mk 9 9 9 9))] rfl

/-- C3 counterexample: with the indicator previously visible, a batch
whose heading message has x = 0 and y = 0 leaves the indicator visible
after processing — the code only skips the positive-length branch and
never reaches the hide branch, which runs solely when no heading message
is present. -/
theorem zero_heading_stays_visible_counterexample :
    (processFrame none (some "c")
        (SceneState.mk (Quat.mk 0 0 0 1) 0 true)
        [MessageEvent.mk "c" (some (Payload.mk 0 0 5 0))]).courseVisible = true := by
  unfold processFrame
  rw [extractLatest_none_sel]
  rw [show extractLatest [MessageEvent.mk "c" (some (Payload.mk 0 0 5 0))] (some "c")
        = some (MessageEvent.mk "c" (some (Payload.mk 0 0 5 0))) from rfl]
  rw [applyCourse_some_msg _ _ (Payload.mk 0 0 5 0) rfl]
  rw [if_neg (by norm_num)]
  rfl

/-- C3 amended: for every frame batch whose heading message has a zero
horizontal projection (x = 0 and y = 0), processing leaves the heading
indicator visibility and rotation unchanged; it does not hide a
previously visible indicator. -/
theorem processFrame_zero_heading_leaves_indicator_unchanged
    (topic course : Option String) (scene : SceneState) (msgs : List MessageEvent)
    (m : MessageEvent) (v : Payload)
    (hm : extractLatest msgs course = some m) (hv : m.message = some v)
    (hx : v.x = 0) (hy : v.y = 0) :
    (processFrame topic course scene msgs).courseVisible = scene.courseVisible
    ∧ (processFrame topic course scene msgs).courseAngleY = scene.courseAngleY := by
  unfold processFrame
  rw [hm, applyCourse_some_msg _ _ _ hv, if_neg (by rw [hx, hy]; norm_num)]
  exact ⟨applyQuat_courseVisible _ _, applyQuat_courseAngleY _ _⟩

/-- Witness for the amended C3 at a concrete input: a visible indicator
stays visible across a batch with the heading sample (0, 0, 7). -/
theorem processFrame_zero_heading_leaves_indicator_unchanged_witness :
    (processFrame none (some "h")
        (SceneState.mk (Quat.mk 0 0 0 1) (1 / 2) true)
        [MessageEvent.mk "h" (some (Payload.mk 0 0 7 0))]).courseVisible = true :=
  (processFrame_zero_heading_leaves_indicator_unchanged none (some "h")
      (SceneState.mk (Quat.mk 0 0 0 1) (1 / 2) true)
      [MessageEvent.mk "h" (some (Payload.mk 0 0 7 0))]
      (MessageEvent.mk "h" (some (Payload.mk 0 0 7 0))) (Payload.mk 0 0 7 0)
      rfl rfl rfl rfl).1

/-- C4: on every invocation of the per-frame render callback the stored
done callback changes to the freshly supplied closure, so the render-done
effect fires and invokes it exactly once — independent of the topic list,
of the presence of messages in the batch, and of any topic selection. -/
theorem invokeFrame_calls_done_exactly_once (s : UiState) (rs : RenderState) (doneId : Nat)
    (hfresh : s.renderDone ≠ some doneId) :
    (invokeFrame s rs doneId).2 = [doneId] := by
  show doneEffect s (onRenderCallback s rs doneId) = [doneId]
  unfold doneEffect
  rw [show (onRenderCallback s rs doneId).renderDone = some doneId from rfl]
  rw [if_neg fun hh => hfresh hh.symm]
  rfl

/-- Witness for C4 at a concrete input: an empty topic list, no current
frame and no prior stored callback still produce exactly one done call. -/
theorem invokeFrame_calls_done_exactly_once_witness :
    (invokeFrame (UiState.mk none none none) (RenderState.mk [] none) 0).2 = [0] :=
  invokeFrame_calls_done_exactly_once (UiState.mk none none none)
    (RenderState.mk [] none) 0 (fun h => Option.noConfusion h)

/-- C5: for every heading message whose horizontal projection has
positive length, processing sets the indicator rotation about the
vertical axis to atan2 of the normalized x over the normalized y — with
x as the first atan2 argument — and makes the indicator visible; in
particular atan2 1 0 = pi / 2 (the x = 1, y = 0 case) and
atan2 0 1 = 0 (the x = 0, y = 1 case). -/
theorem processFrame_heading_sets_atan2
    (topic course : Option String) (scene : SceneState) (msgs : List MessageEvent)
    (m : MessageEvent) (v : Payload)
    (hm : extractLatest msgs course = some m) (hv : m.message = some v)
    (hlen : Real.sqrt (v.x * v.x + v.y * v.y) > 0) :
    (processFrame topic course scene msgs).courseAngleY
        = atan2 (v.x / Real.sqrt (v.x * v.x + v.y * v.y))
            (v.y / Real.sqrt (v.x * v.x + v.y * v.y))
    ∧ (processFrame topic course scene msgs).courseVisible = true
    ∧ atan2 1 0 = Real.pi / 2 ∧ atan2 0 1 = 0 := by
  unfold processFrame
  rw [hm, applyCourse_some_msg _ _ _ hv, if_pos hlen]
  exact ⟨rfl, rfl, atan2_one_zero, atan2_zero_one⟩

/-- Witness for C5 at a concrete input: the heading sample (1, 0, 0)
makes the indicator visible. -/
theorem processFrame_heading_sets_atan2_witness :
    (processFrame none (some "v") initialScene
        [MessageEvent.mk "v" (some (Payload.mk 1 0 0 0))]).courseVisible = true :=
  (processFrame_heading_sets_atan2 none (some "v") initialScene
      [MessageEvent.mk "v" (some (Payload.mk 1 0 0 0))]
      (MessageEvent.mk "v" (some (Payload.mk 1 0 0 0))) (Payload.mk 1 0 0 0)
      rfl rfl (by norm_num)).2.1

/-- C6: extraction returns the first message in the batch whose topic
equals the given name — equivalently the head of the order-preserving
filter of the batch — returns none exactly when no message matches, and
any returned message matches the name and belongs to the batch. -/
theorem extractLatest_first_match_spec (msgs : List MessageEvent) (name : String) :
    extractLatest msgs (some name)
        = (msgs.filter (fun m => m.topic == name)).head?
    ∧ (extractLatest msgs (some name) = none ↔ ∀ m ∈ msgs, m.topic ≠ name)
    ∧ ∀ m, extractLatest msgs (some name) = some m → m.topic = name ∧ m ∈ msgs := by
  refine ⟨find?_eq_head?_filter _ msgs, ?_, ?_⟩
  · unfold extractLatest
    rw [List.find?_eq_none]
    constructor
    · intro h m hmem heq
      exact h m hmem (by simp [topicMatches, heq])
    · intro h m hmem hmatch
      exact h m hmem (by simpa [topicMatches] using hmatch)
  · intro m hm
    have h1 := List.find?_some hm
    have h2 := List.mem_of_find?_eq_some hm
    exact ⟨by simpa [topicMatches] using h1, h2⟩

/-- Witness for C6 at a concrete input: with two messages on the same
topic, extraction returns the first-seen one. -/
theorem extractLatest_first_match_spec_witness :
    extractLatest [MessageEvent.mk "x" none, MessageEvent.mk "x" (some (Payload.mk 1 2 3 4))]
        (some "x")
      = ([MessageEvent.mk "x" none, MessageEvent.mk "x" (some (Payload.mk 1 2 3 4))].filter
          (fun m => m.topic == "x")).head? :=
  (extractLatest_first_match_spec
      [MessageEvent.mk "x" none, MessageEvent.mk "x" (some (Payload.mk 1 2 3 4))] "x").1

/-- C7: defaulting selects the first candidate when no orientation topic
is selected and candidates exist, never overwrites an existing
orientation selection, and never auto-picks a heading topic: after
defaulting the heading selection is either the prior one or unset. -/
theorem defaultSelection_spec (candidates : List Topic) (cur : PanelState) :
    (cur.topic = none → ∀ c cs, candidates = c :: cs →
        (defaultSelection candidates cur).topic = some c.name)
    ∧ (cur.topic ≠ none → defaultSelection candidates cur = cur)
    ∧ ((defaultSelection candidates cur).course_topic = cur.course_topic
        ∨ (defaultSelection candidates cur).course_topic = none) := by
  refine ⟨?_, ?_, ?_⟩
  · intro h c cs hc
    subst hc
    simp [defaultSelection, h]
  · intro h
    simp [defaultSelection, h]
  · by_cases h : cur.topic = none
    · exact Or.inr (by simp [defaultSelection, h])
    · exact Or.inl (by simp [defaultSelection, h])

/-- Witness for C7 at a concrete input: with no current selection and
candidates [A, B], the orientation topic becomes A. -/
theorem defaultSelection_spec_witness :
    (defaultSelection
        [Topic.mk "A" "foxglove.Quaternion", Topic.mk "B" "foxglove.Quaternion"]
        (PanelState.mk none none)).topic = some "A" :=
  (defaultSelection_spec
      [Topic.mk "A" "foxglove.Quaternion", Topic.mk "B" "foxglove.Quaternion"]
      (PanelState.mk none none)).1 rfl
    (Topic.mk "A" "foxglove.Quaternion") [Topic.mk "B" "foxglove.Quaternion"] rfl

/-- C8: for every frame batch containing no message on the selected
heading topic — in particular whenever no heading topic is selected —
processing leaves the heading indicator hidden. -/
theorem processFrame_no_heading_msg_hides_indicator
    (topic course : Option String) (scene : SceneState) (msgs : List MessageEvent)
    (h : course = none ∨ extractLatest msgs course = none) :
    (processFrame topic course scene msgs).courseVisible = false := by
  unfold processFrame
  have hnone : extractLatest msgs course = none := by
    rcases h with h | h
    · rw [h]
      exact extractLatest_none_sel msgs
    · exact h
  rw [hnone]
  rfl

/-- Witness for C8 at a concrete input: an empty batch with no heading
topic selected hides a previously visible indicator. -/
theorem processFrame_no_heading_msg_hides_indicator_witness :
    (processFrame none none (SceneState.mk (Quat.mk 0 0 0 1) 0 true) []).courseVisible
      = false :=
  processFrame_no_heading_msg_hides_indicator none none
    (SceneState.mk (Quat.mk 0 0 0 1) 0 true) [] (Or.inl rfl)

/-- C9 counterexample: the resize handler does not behave like the
spec-described guarded handler — at container size 100 x 0 the code
computes the aspect as 100 / 0 (the division-by-zero value) while a
guarded handler would have preserved the prior aspect 1. -/
theorem onResize_unguarded_counterexample :
    (onResize (ViewState.mk 1 1 1) 100 0).aspect
      ≠ (onResizeGuardedSpec (ViewState.mk 1 1 1) 100 0).aspect := by
  unfold onResize onResizeGuardedSpec
  rw [if_neg fun hc => hc.2 rfl]
  norm_num

/-- C9 amended: the resize handler recomputes the camera aspect as
width / height unconditionally, with no non-zero container-size check:
whenever the height is non-zero the stored aspect really is the quotient,
and at height zero the aspect is still overwritten with the
division-by-zero value instead of being preserved. -/
theorem onResize_unconditional_aspect (v : ViewState) (w h : ℝ) (hh : h ≠ 0) :
    (onResize v w h).aspect * h = w ∧ (onResize v w 0).aspect = 0 := by
  constructor
  · show w / h * h = w
    field_simp
  · show w / 0 = 0
    simp

/-- Witness for the amended C9 at a concrete input: resizing to 100 x 2
stores an aspect whose product with the height recovers the width. -/
theorem onResize_unconditional_aspect_witness :
    (onResize (ViewState.mk 1 1 1) 100 2).aspect * 2 = 100 :=
  (onResize_unconditional_aspect (ViewState.mk 1 1 1) 100 2 (by norm_num)).1

/-- C10: whenever defaulting of the orientation topic runs (the topic is
unset), the whole panel configuration is replaced by an object holding
only the defaulted orientation topic: any previously configured heading
topic is cleared to unset, and this happens even when the candidate list
is empty. -/
theorem defaultSelection_replaces_whole_state (candidates : List Topic) (cur : PanelState)
    (h : cur.topic = none) :
    defaultSelection candidates cur
      = PanelState.mk (candidates.head?.map Topic.name) none := by
  simp [defaultSelection, h]

/-- Witness for C10 at a concrete input: with an empty candidate list and
a configured heading topic, defaulting clears the whole configuration. -/
theorem defaultSelection_replaces_whole_state_witness :
    defaultSelection [] (PanelState.mk none (some "course")) = PanelState.mk none none :=
  defaultSelection_replaces_whole_state [] (PanelState.mk none (some "course")) rfl
